import Mathlib

/-!
Verification of the cinema-ticketing persistence schema (db/models.py).

The development shallowly embeds the data model and the only piece of
logic in the repository: the `Ticket` validator (`Ticket.clean`), the
validated save path (`Ticket.save`), the storage-level uniqueness
constraint declared in `Ticket.Meta`, the derived `CinemaHall.capacity`,
the default `Order` listing declared in `Order.Meta`, and the cascade
deletes declared on the foreign keys.

Integers are modelled as `Int` (the fields are Django `IntegerField`s);
timestamps as `Nat`; identities as `Nat` surrogate keys. Stateful
persistence is explicit state passing over lists of records.
-/

/-- Embeds `CinemaHall` (models.py lines 35-45): a name and two plain
integer dimension fields. The source declares `rows` and `seats_in_row`
as `models.IntegerField()` with no validators, checks or positivity
constraint. -/
structure CinemaHall where
  name : String
  rows : Int
  seats_in_row : Int
deriving DecidableEq, Repr

/-- Embeds the derived property `CinemaHall.capacity` (models.py
lines 40-42): `return self.rows * self.seats_in_row`. -/
def CinemaHall.capacity (h : CinemaHall) : Int :=
  h.rows * h.seats_in_row

/-- Embeds `MovieSession` (models.py lines 48-54): a show time, a foreign
key to a `CinemaHall` (held inline, as `Ticket.clean` dereferences
`self.movie_session.cinema_hall`) and a foreign key to a `Movie` (kept as
a surrogate id; no logic touches the movie). `id` is the implicit primary
key. -/
structure MovieSession where
  id : Nat
  show_time : Nat
  cinema_hall : CinemaHall
  movie_id : Nat
deriving DecidableEq, Repr

/-- Embeds `Order` (models.py lines 57-67): an auto-set creation
timestamp and a foreign key to the user. `id` is the implicit primary
key. -/
structure Order where
  id : Nat
  created_at : Nat
  user_id : Nat
deriving DecidableEq, Repr

/-- Embeds `Ticket` (models.py lines 70-129): foreign keys to a
`MovieSession` (inline, dereferenced by `clean`) and to an `Order`
(surrogate id), plus the `row` and `seat` integer fields. -/
structure Ticket where
  movie_session : MovieSession
  order_id : Nat
  row : Int
  seat : Int
deriving DecidableEq, Repr

/-- Embeds Django's `ValidationError` as raised by `Ticket.clean`: a
field-to-messages mapping together with an error code. -/
structure ValidationError where
  errors : List (String × List String)
  code : String
deriving DecidableEq, Repr

/-- The field names carried by a validation outcome (the keys of the
field-to-messages mapping), empty when validation succeeded. -/
def errFields : Except ValidationError Unit → List String
  | .error e => e.errors.map Prod.fst
  | .ok _ => []

/-- Embeds `Ticket.clean` (models.py lines 85-109). The source first
checks `1 <= self.row <= cinema_hall.rows` and raises a
`ValidationError` on the single field `row` with code
`seat_out_of_range` if it fails; only when that check passes does it
check `1 <= self.seat <= cinema_hall.seats_in_row`, raising on the
single field `seat` with the same code. The message strings reproduce
the `str.format` results of the source. -/
def Ticket.clean (t : Ticket) : Except ValidationError Unit :=
  let cinema_hall := t.movie_session.cinema_hall
  if ¬ (1 ≤ t.row ∧ t.row ≤ cinema_hall.rows) then
    .error
      { errors := [("row",
          ["row number must be in available range: (1, rows): (1, "
            ++ toString cinema_hall.rows ++ ")"])],
        code := "seat_out_of_range" }
  else if ¬ (1 ≤ t.seat ∧ t.seat ≤ cinema_hall.seats_in_row) then
    .error
      { errors := [("seat",
          ["seat number must be in available range: (1, seats_in_row): (1, "
            ++ toString cinema_hall.seats_in_row ++ ")"])],
        code := "seat_out_of_range" }
  else
    .ok ()

/-- Embeds `self.full_clean()` as invoked by `Ticket.save` (models.py
line 118). The only model-level validation declared on `Ticket` is its
`clean` method; the field declarations (plain `IntegerField`s and
required foreign keys, all populated in this embedding) add no further
check, so `full_clean` reduces to running `clean`. -/
def Ticket.full_clean (t : Ticket) : Except ValidationError Unit :=
  t.clean

/-- Errors a ticket save can surface: a `ValidationError` raised by the
validator before the write, or the storage engine rejecting the write
because of the uniqueness constraint of `Ticket.Meta` (a duplicate
seat), which is a distinct error kind. -/
inductive SaveError where
  | validation (e : ValidationError)
  | duplicateSeat
deriving DecidableEq, Repr

/-- The fields of the uniqueness constraint declared in `Ticket.Meta`
(models.py lines 123-129): `UniqueConstraint(fields=["row", "seat",
"movie_session"], name="unique_ticket_constraint_name")`. -/
def uniqueTicketConstraintFields : List String :=
  ["row", "seat", "movie_session"]

/-- Two tickets collide on the `Ticket.Meta` uniqueness constraint when
they agree on each of its fields: `row`, `seat` and the `movie_session`
foreign key (compared by primary key, as the storage engine does). -/
def sameSeatTriple (t u : Ticket) : Bool :=
  t.row == u.row && t.seat == u.seat
    && t.movie_session.id == u.movie_session.id

/-- The storage engine's insert of a ticket row, enforcing the declared
`UniqueConstraint` of `Ticket.Meta`: the write is rejected with a
duplicate-seat error when an already-persisted ticket agrees on the
constraint's `(row, seat, movie_session)` triple, and appends the row
otherwise. Returns the resulting table together with the outcome. -/
def dbInsertTicket (db : List Ticket) (t : Ticket) :
    List Ticket × Except SaveError Unit :=
  if db.any (fun u => sameSeatTriple u t) then
    (db, .error .duplicateSeat)
  else
    (db ++ [t], .ok ())

/-- Embeds `Ticket.save` (models.py lines 111-121): the override first
runs `self.full_clean()`, and only when that raises nothing does it
delegate to the superclass save, i.e. the storage-engine write. A
validation failure therefore surfaces before any write is attempted and
leaves the table unchanged. -/
def Ticket.save (db : List Ticket) (t : Ticket) :
    List Ticket × Except SaveError Unit :=
  match t.full_clean with
  | .error e => (db, .error (.validation e))
  | .ok _ => dbInsertTicket db t

/-- The comparator induced by `Order.Meta.ordering = ["-created_at"]`
(models.py lines 66-67): an order sorts before another when its creation
timestamp is at least as recent. -/
def orderBeforeByCreatedAtDesc (a b : Order) : Bool :=
  b.created_at ≤ a.created_at

/-- Inserts an order into an already ordered listing at the first
position where the `Order.Meta` comparator accepts it. -/
def insertOrderDesc (a : Order) : List Order → List Order
  | [] => [a]
  | b :: bs =>
      if orderBeforeByCreatedAtDesc a b then a :: b :: bs
      else b :: insertOrderDesc a bs

/-- Embeds the default retrieval of orders under
`Order.Meta.ordering = ["-created_at"]` (models.py lines 66-67): the
stored orders arranged by creation timestamp descending (insertion
sort with the declared comparator). -/
def orderDefaultListing : List Order → List Order
  | [] => []
  | a :: as => insertOrderDesc a (orderDefaultListing as)

/-- The persisted state the cascade rules act on: the movie-session
table, the order table and the ticket table. -/
structure Db where
  sessions : List MovieSession
  orders : List Order
  tickets : List Ticket
deriving DecidableEq, Repr

/-- Embeds deletion of a `MovieSession` with the cascade declared on
`Ticket.movie_session = models.ForeignKey(MovieSession, ...,
on_delete=models.CASCADE)` (models.py lines 71-73): the session row is
removed and every ticket referencing it is removed with it; the order
table is untouched. -/
def deleteMovieSession (db : Db) (sid : Nat) : Db :=
  { sessions := db.sessions.filter (fun s => s.id != sid),
    orders := db.orders,
    tickets := db.tickets.filter (fun t => t.movie_session.id != sid) }

/-- Embeds deletion of an `Order` with the cascade declared on
`Ticket.order = models.ForeignKey(Order, ..., on_delete=models.CASCADE)`
(models.py lines 74-76): the order row is removed and every ticket
referencing it is removed with it; the session table is untouched. -/
def deleteOrder (db : Db) (oid : Nat) : Db :=
  { sessions := db.sessions,
    orders := db.orders.filter (fun o => o.id != oid),
    tickets := db.tickets.filter (fun t => t.order_id != oid) }

/-- The schema-level validation of `CinemaHall` (models.py lines 35-38):
the source declares `name`, `rows` and `seats_in_row` with no
validators, no checks and no positivity constraint, so model validation
has nothing to reject. -/
def CinemaHall.full_clean (_h : CinemaHall) : Except ValidationError Unit :=
  .ok ()

/-- Persistence of a `CinemaHall`: the model declares no `save` override
and no constraints beyond the field declarations, so a save validates
the (empty) schema constraints and appends the row. -/
def CinemaHall.save (db : List CinemaHall) (h : CinemaHall) :
    List CinemaHall × Except ValidationError Unit :=
  match h.full_clean with
  | .error e => (db, .error e)
  | .ok _ => (db ++ [h], .ok ())

/-! Concrete fixtures used by witnesses and counterexamples. -/

/-- A 5-row, 5-seats-per-row hall. -/
def hall5x5 : CinemaHall := { name := "hall", rows := 5, seats_in_row := 5 }

/-- A session in `hall5x5`. -/
def session1 : MovieSession :=
  { id := 1, show_time := 100, cinema_hall := hall5x5, movie_id := 1 }

/-- C6. For every CinemaHall, the derived attribute capacity equals
rows * seats_in_row; in particular rows = 10 and seats_in_row = 15 yield
capacity = 150. -/
theorem capacity_eq_rows_mul_seats :
    (∀ h : CinemaHall, h.capacity = h.rows * h.seats_in_row) ∧
    CinemaHall.capacity { name := "big", rows := 10, seats_in_row := 15 } = 150 :=
  ⟨fun _ => rfl, by decide⟩

/-- C3. For every hall and every candidate ticket with row in
[1, rows] and seat in [1, seats_in_row], validation succeeds: `clean`
raises no error and returns normally. -/
theorem clean_ok_of_in_range (t : Ticket)
    (hr : 1 ≤ t.row ∧ t.row ≤ t.movie_session.cinema_hall.rows)
    (hs : 1 ≤ t.seat ∧ t.seat ≤ t.movie_session.cinema_hall.seats_in_row) :
    t.clean = .ok () := by
  simp [Ticket.clean, hr, hs]

/-- Witness for C3: a ticket at row 3, seat 4 of a 5-by-5 hall is in
range and validates. -/
theorem clean_ok_of_in_range_witness :
    Ticket.clean { movie_session := session1, order_id := 1, row := 3, seat := 4 }
      = .ok () :=
  clean_ok_of_in_range
    { movie_session := session1, order_id := 1, row := 3, seat := 4 }
    (by decide) (by decide)

/-- C1 counterexample. For the ticket at row 6, seat 7 of a 5-by-5 hall
both row and seat are out of range, yet the validation result carries an
error entry for the field row only: no entry for the field seat is
present, refuting the claim that both field errors appear together. -/
theorem clean_does_not_accumulate_errors :
    ¬ (1 ≤ (6 : Int) ∧ (6 : Int) ≤ hall5x5.rows) ∧
    ¬ (1 ≤ (7 : Int) ∧ (7 : Int) ≤ hall5x5.seats_in_row) ∧
    errFields
      (Ticket.clean { movie_session := session1, order_id := 1, row := 6, seat := 7 })
      = ["row"] ∧
    "seat" ∉ errFields
      (Ticket.clean { movie_session := session1, order_id := 1, row := 6, seat := 7 }) := by
  refine ⟨by decide, by decide, ?_, by decide⟩
  decide

/-- C1 amended. For every ticket whose row and seat are both out of
range for its session's hall, the validator reports only the row error:
the result carries the single field entry row and no entry for seat. -/
theorem clean_both_invalid_reports_row_only (t : Ticket)
    (hr : ¬ (1 ≤ t.row ∧ t.row ≤ t.movie_session.cinema_hall.rows))
    (hs : ¬ (1 ≤ t.seat ∧ t.seat ≤ t.movie_session.cinema_hall.seats_in_row)) :
    errFields t.clean = ["row"] ∧ "seat" ∉ errFields t.clean := by
  have : t.clean = .error
      { errors := [("row",
          ["row number must be in available range: (1, rows): (1, "
            ++ toString t.movie_session.cinema_hall.rows ++ ")"])],
        code := "seat_out_of_range" } := by
    simp [Ticket.clean, hr]
  rw [this]
  simp [errFields]

/-- Witness for the amended C1: at row 0, seat 9 of a 5-by-5 hall the
validator reports the row error alone. -/
theorem clean_both_invalid_reports_row_only_witness :
    errFields
      (Ticket.clean { movie_session := session1, order_id := 2, row := 0, seat := 9 })
      = ["row"] ∧
    "seat" ∉ errFields
      (Ticket.clean { movie_session := session1, order_id := 2, row := 0, seat := 9 }) :=
  clean_both_invalid_reports_row_only
    { movie_session := session1, order_id := 2, row := 0, seat := 9 }
    (by decide) (by decide)

/-- C4 counterexample. The ticket at row -2, seat 0 of a 5-by-5 hall has
its seat outside [1, seats_in_row], yet validation does not fail with an
error naming the field seat: the error names only the field row, so the
unconditional seat clause of the claim is false. -/
theorem clean_seat_clause_fails_when_row_invalid :
    ¬ (1 ≤ (0 : Int) ∧ (0 : Int) ≤ hall5x5.seats_in_row) ∧
    "seat" ∉ errFields
      (Ticket.clean { movie_session := session1, order_id := 3, row := -2, seat := 0 }) ∧
    errFields
      (Ticket.clean { movie_session := session1, order_id := 3, row := -2, seat := 0 })
      = ["row"] := by
  refine ⟨by decide, by decide, ?_⟩
  decide

/-- C4 amended. If a ticket's row lies outside [1, rows], validation
fails with code seat_out_of_range naming the field row and reporting the
valid range; if the row is within range and the seat lies outside
[1, seats_in_row], validation fails with code seat_out_of_range naming
the field seat and reporting the valid range. Boundary values row = 0,
row = rows+1, seat = 0, seat = seats_in_row+1 all fail. -/
theorem clean_out_of_range_field_errors (t : Ticket) :
    (¬ (1 ≤ t.row ∧ t.row ≤ t.movie_session.cinema_hall.rows) →
      t.clean = .error
        { errors := [("row",
            ["row number must be in available range: (1, rows): (1, "
              ++ toString t.movie_session.cinema_hall.rows ++ ")"])],
          code := "seat_out_of_range" }) ∧
    ((1 ≤ t.row ∧ t.row ≤ t.movie_session.cinema_hall.rows) →
      ¬ (1 ≤ t.seat ∧ t.seat ≤ t.movie_session.cinema_hall.seats_in_row) →
      t.clean = .error
        { errors := [("seat",
            ["seat number must be in available range: (1, seats_in_row): (1, "
              ++ toString t.movie_session.cinema_hall.seats_in_row ++ ")"])],
          code := "seat_out_of_range" }) := by
  constructor
  · intro hr
    simp [Ticket.clean, hr]
  · intro hr hs
    simp [Ticket.clean, hr, hs]

/-- Witness for the amended C4: at the boundary row 0 the validator
fails on the field row, and at valid row 1 with boundary seat 6 (one
past a 5-seat row) it fails on the field seat, each with the range in
the message. -/
theorem clean_out_of_range_field_errors_witness :
    Ticket.clean { movie_session := session1, order_id := 4, row := 0, seat := 1 }
      = .error
        { errors := [("row",
            ["row number must be in available range: (1, rows): (1, 5)"])],
          code := "seat_out_of_range" } ∧
    Ticket.clean { movie_session := session1, order_id := 4, row := 1, seat := 6 }
      = .error
        { errors := [("seat",
            ["seat number must be in available range: (1, seats_in_row): (1, 5)"])],
          code := "seat_out_of_range" } :=
  ⟨(clean_out_of_range_field_errors
      { movie_session := session1, order_id := 4, row := 0, seat := 1 }).1 (by decide),
   (clean_out_of_range_field_errors
      { movie_session := session1, order_id := 4, row := 1, seat := 6 }).2
      (by decide) (by decide)⟩

/-- C10. The validator short-circuits on the row check: whenever the row
is out of range, the result is exactly the single row field error (the
seat is never consulted), and a seat field error can appear only when
the row is within range. -/
theorem clean_short_circuits_on_row (t : Ticket) :
    (¬ (1 ≤ t.row ∧ t.row ≤ t.movie_session.cinema_hall.rows) →
      errFields t.clean = ["row"]) ∧
    ("seat" ∈ errFields t.clean →
      1 ≤ t.row ∧ t.row ≤ t.movie_session.cinema_hall.rows) := by
  constructor
  · intro hr
    simp [Ticket.clean, hr, errFields]
  · intro hmem
    by_contra hr
    simp [Ticket.clean, hr, errFields] at hmem

/-- Witness for C10: at row 7, seat 99 of a 5-by-5 hall only the row
error is produced, and for the ticket at row 2, seat 0 whose result does
name seat, the row 2 is indeed within range. -/
theorem clean_short_circuits_on_row_witness :
    errFields
      (Ticket.clean { movie_session := session1, order_id := 5, row := 7, seat := 99 })
      = ["row"] ∧
    (1 ≤ (2 : Int) ∧ (2 : Int) ≤
      ({ movie_session := session1, order_id := 5, row := 2, seat := 0 } :
        Ticket).movie_session.cinema_hall.rows) :=
  ⟨(clean_short_circuits_on_row
      { movie_session := session1, order_id := 5, row := 7, seat := 99 }).1 (by decide),
   (clean_short_circuits_on_row
      { movie_session := session1, order_id := 5, row := 2, seat := 0 }).2 (by decide)⟩

/-- C2. For a fixed movie session, the (row, seat) pair is unique among
persisted tickets: with no conflicting row already stored, the first
save of a ticket succeeds and is written, and a second save of a ticket
agreeing on the (row, seat, movie_session) constraint triple is rejected
by the storage layer with a duplicate-seat error, which is distinct from
every validation (seat-out-of-range) error; the table keeps only the
first ticket. -/
theorem unique_seat_constraint_blocks_double_booking
    (db : List Ticket) (t u : Ticket)
    (ht : t.full_clean = .ok ()) (hu : u.full_clean = .ok ())
    (hfresh : ∀ v ∈ db, sameSeatTriple v t = false)
    (hrow : u.row = t.row) (hseat : u.seat = t.seat)
    (hsess : u.movie_session.id = t.movie_session.id) :
    Ticket.save db t = (db ++ [t], .ok ()) ∧
    Ticket.save (db ++ [t]) u = (db ++ [t], .error .duplicateSeat) ∧
    ∀ e : ValidationError, SaveError.duplicateSeat ≠ SaveError.validation e := by
  have hany : db.any (fun v => sameSeatTriple v t) = false := by
    simp only [List.any_eq_false]
    intro v hv
    simp [hfresh v hv]
  have hcollide : sameSeatTriple t u = true := by
    simp [sameSeatTriple, hrow, hseat, hsess]
  have hany2 : (db ++ [t]).any (fun v => sameSeatTriple v u) = true := by
    simp [List.any_append, hcollide]
  refine ⟨?_, ?_, ?_⟩
  · simp [Ticket.save, ht, dbInsertTicket, hany]
  · simp [Ticket.save, hu, dbInsertTicket, hany2]
  · intro e h
    cases h

/-- A valid ticket at row 2, seat 3 of `session1`. -/
def ticketA : Ticket := { movie_session := session1, order_id := 1, row := 2, seat := 3 }

/-- A ticket for a different order claiming the same seat as `ticketA`
in the same session. -/
def ticketB : Ticket := { movie_session := session1, order_id := 2, row := 2, seat := 3 }

/-- Witness for C2: on an empty table, saving `ticketA` succeeds and the
subsequent save of `ticketB` (same row, seat and session) fails with the
duplicate-seat error, leaving only `ticketA` stored. -/
theorem unique_seat_constraint_witness :
    Ticket.save [] ticketA = ([ticketA], .ok ()) ∧
    Ticket.save [ticketA] ticketB = ([ticketA], .error .duplicateSeat) := by
  have h := unique_seat_constraint_blocks_double_booking [] ticketA ticketB
    rfl rfl (by simp) rfl rfl rfl
  exact ⟨by simpa using h.1, by simpa using h.2.1⟩

/-- C5. Saving a ticket runs the validator first: when `full_clean`
fails, `save` returns that validation error and the table is unchanged
(no write is attempted), and whenever `save` changed the table the
validator had succeeded. -/
theorem save_validates_before_write (db : List Ticket) (t : Ticket) :
    (∀ e : ValidationError, t.full_clean = .error e →
      Ticket.save db t = (db, .error (.validation e))) ∧
    ((Ticket.save db t).1 ≠ db → t.full_clean = .ok ()) := by
  constructor
  · intro e he
    simp [Ticket.save, he]
  · intro hne
    cases hfc : t.full_clean with
    | error e =>
        exact absurd (show (Ticket.save db t).1 = db by simp [Ticket.save, hfc]) hne
    | ok u =>
        cases u
        rfl

/-- Witness for C5: the out-of-range ticket at row 0 is rejected with
its validation error and the empty table is left empty, while saving the
in-range `ticketA` changes the table and indeed `ticketA` had validated. -/
theorem save_validates_before_write_witness :
    Ticket.save [] { movie_session := session1, order_id := 6, row := 0, seat := 2 }
      = ([], .error (.validation
          { errors := [("row",
              ["row number must be in available range: (1, rows): (1, 5)"])],
            code := "seat_out_of_range" })) ∧
    Ticket.full_clean ticketA = .ok () :=
  ⟨(save_validates_before_write []
      { movie_session := session1, order_id := 6, row := 0, seat := 2 }).1
      { errors := [("row",
          ["row number must be in available range: (1, rows): (1, 5)"])],
        code := "seat_out_of_range" }
      rfl,
   (save_validates_before_write [] ticketA).2 (by decide)⟩

/-- C7. The default retrieval of orders is sorted by created_at
descending: for any three orders created at times T1 < T2 < T3,
whichever arrangement they are stored in, the default listing is
[T3, T2, T1]. -/
theorem order_listing_most_recent_first (o1 o2 o3 : Order)
    (h12 : o1.created_at < o2.created_at)
    (h23 : o2.created_at < o3.created_at) :
    orderDefaultListing [o1, o2, o3] = [o3, o2, o1] ∧
    orderDefaultListing [o1, o3, o2] = [o3, o2, o1] ∧
    orderDefaultListing [o2, o1, o3] = [o3, o2, o1] ∧
    orderDefaultListing [o2, o3, o1] = [o3, o2, o1] ∧
    orderDefaultListing [o3, o1, o2] = [o3, o2, o1] ∧
    orderDefaultListing [o3, o2, o1] = [o3, o2, o1] := by
  have b12 : orderBeforeByCreatedAtDesc o1 o2 = false := by
    simp [orderBeforeByCreatedAtDesc]
    omega
  have b13 : orderBeforeByCreatedAtDesc o1 o3 = false := by
    simp [orderBeforeByCreatedAtDesc]
    omega
  have b23 : orderBeforeByCreatedAtDesc o2 o3 = false := by
    simp [orderBeforeByCreatedAtDesc]
    omega
  have b21 : orderBeforeByCreatedAtDesc o2 o1 = true := by
    simp [orderBeforeByCreatedAtDesc]
    omega
  have b31 : orderBeforeByCreatedAtDesc o3 o1 = true := by
    simp [orderBeforeByCreatedAtDesc]
    omega
  have b32 : orderBeforeByCreatedAtDesc o3 o2 = true := by
    simp [orderBeforeByCreatedAtDesc]
    omega
  refine ⟨?_, ?_, ?_, ?_, ?_, ?_⟩ <;>
    simp [orderDefaultListing, insertOrderDesc, b12, b13, b23, b21, b31, b32]

/-- Witness for C7: three concrete orders created at times 10 < 20 < 30,
stored oldest first, are listed most recent first. -/
theorem order_listing_most_recent_first_witness :
    orderDefaultListing
        [{ id := 1, created_at := 10, user_id := 1 },
         { id := 2, created_at := 20, user_id := 1 },
         { id := 3, created_at := 30, user_id := 1 }]
      = [{ id := 3, created_at := 30, user_id := 1 },
         { id := 2, created_at := 20, user_id := 1 },
         { id := 1, created_at := 10, user_id := 1 }] :=
  (order_listing_most_recent_first
    { id := 1, created_at := 10, user_id := 1 }
    { id := 2, created_at := 20, user_id := 1 }
    { id := 3, created_at := 30, user_id := 1 }
    (by decide) (by decide)).1

/-- C8. Cascade deletion: deleting a movie session removes exactly the
tickets referencing that session (none survive, every other ticket
survives) and leaves the order table untouched; deleting an order
removes exactly the tickets referencing that order and leaves the
session table untouched; unrelated sessions and orders are kept. -/
theorem delete_cascades_to_tickets (db : Db) (sid oid : Nat) :
    ((∀ t ∈ (deleteMovieSession db sid).tickets, t.movie_session.id ≠ sid) ∧
     (∀ t ∈ db.tickets, t.movie_session.id ≠ sid →
        t ∈ (deleteMovieSession db sid).tickets) ∧
     (deleteMovieSession db sid).orders = db.orders ∧
     (∀ s ∈ db.sessions, s.id ≠ sid → s ∈ (deleteMovieSession db sid).sessions)) ∧
    ((∀ t ∈ (deleteOrder db oid).tickets, t.order_id ≠ oid) ∧
     (∀ t ∈ db.tickets, t.order_id ≠ oid → t ∈ (deleteOrder db oid).tickets) ∧
     (deleteOrder db oid).sessions = db.sessions ∧
     (∀ o ∈ db.orders, o.id ≠ oid → o ∈ (deleteOrder db oid).orders)) := by
  refine ⟨⟨?_, ?_, rfl, ?_⟩, ?_, ?_, rfl, ?_⟩
  · intro t ht
    simp [deleteMovieSession, List.mem_filter] at ht
    exact ht.2
  · intro t ht hne
    simp [deleteMovieSession, List.mem_filter]
    exact ⟨ht, hne⟩
  · intro s hs hne
    simp [deleteMovieSession, List.mem_filter]
    exact ⟨hs, hne⟩
  · intro t ht
    simp [deleteOrder, List.mem_filter] at ht
    exact ht.2
  · intro t ht hne
    simp [deleteOrder, List.mem_filter]
    exact ⟨ht, hne⟩
  · intro o ho hne
    simp [deleteOrder, List.mem_filter]
    exact ⟨ho, hne⟩

/-- A second session, in the same hall, used to exercise cascades. -/
def session2 : MovieSession :=
  { id := 2, show_time := 200, cinema_hall := hall5x5, movie_id := 1 }

/-- A ticket for `session2`, surviving deletion of session 1. -/
def ticketC : Ticket := { movie_session := session2, order_id := 1, row := 1, seat := 1 }

/-- A concrete database with two sessions, one order and two tickets. -/
def db0 : Db :=
  { sessions := [session1, session2],
    orders := [{ id := 1, created_at := 10, user_id := 1 }],
    tickets := [ticketA, ticketC] }

/-- Witness for C8: in `db0`, deleting session 1 keeps `ticketC` (which
references session 2), and deleting order 7 keeps `ticketA` (which
references order 1). -/
theorem delete_cascades_to_tickets_witness :
    ticketC ∈ (deleteMovieSession db0 1).tickets ∧
    ticketA ∈ (deleteOrder db0 7).tickets :=
  ⟨((delete_cascades_to_tickets db0 1 7).1).2.1 ticketC (by decide) (by decide),
   ((delete_cascades_to_tickets db0 1 7).2).2.1 ticketA (by decide) (by decide)⟩

/-- C9 counterexample. The schema does not constrain the hall dimensions
to be positive: persisting a hall with rows = 0 and seats_in_row = -3
succeeds, and the stored table then contains a hall violating
rows > 0 ∧ seats_in_row > 0. -/
theorem cinema_hall_accepts_nonpositive_dimensions :
    CinemaHall.save [] { name := "tiny", rows := 0, seats_in_row := -3 }
      = ([{ name := "tiny", rows := 0, seats_in_row := -3 }], .ok ()) ∧
    ∃ h ∈ (CinemaHall.save [] { name := "tiny", rows := 0, seats_in_row := -3 }).1,
      ¬ (0 < h.rows ∧ 0 < h.seats_in_row) :=
  ⟨rfl, ⟨{ name := "tiny", rows := 0, seats_in_row := -3 }, by decide, by decide⟩⟩

/-- C9 amended. The dimension fields are plain integers with no
schema-level positivity constraint: model validation of a hall always
succeeds and persisting any hall, whatever the sign of its dimensions,
succeeds and stores it as given. -/
theorem cinema_hall_dimensions_unconstrained (db : List CinemaHall) (h : CinemaHall) :
    h.full_clean = .ok () ∧ CinemaHall.save db h = (db ++ [h], .ok ()) :=
  ⟨rfl, rfl⟩
